import Mathlib

/-!
# kiwix-manage: a shallow embedding of `src/manager/kiwix-manage.cpp`

The program is a command-line front end over the kiwix library
(`kiwix::Library`, `kiwix::Manager`, `pathTools`) and over `getopt_long` of the
C library.  None of these is part of the repository, so they enter the model
as the fields of one record, `LibraryApi`; every function of the source file
(`show`, `usage`, `handle_show`, `handle_add`, `handle_remove`, `main`) is
translated statement by statement on top of that record.

Observable behaviour is a `Run`: how the process ends (`exit(n)` or abnormal
termination) and the ordered list of effects it performed (calls that touch
the library or its file, lines written to `std::cout` and `std::cerr`).
-/

namespace KiwixManage

/-! ## Data model -/

/-- Number of values of the C++ type `unsigned int` (32 bits). -/
def UINT_RANGE : Nat := 2 ^ 32

/-- Abnormal ends of the process. `nullCString` is the construction of a
`std::string` from a null `const char*`: the standard makes it a precondition
violation, libstdc++ throws `std::logic_error`, which nothing in the program
catches, so the process is terminated. -/
inductive Fault where
  | nullCString
  deriving DecidableEq, Repr

/-- How the process ends. -/
inductive Outcome where
  | exited (code : Nat)
  | aborted (fault : Fault)
  deriving DecidableEq, Repr

/-- The values the getters of `kiwix::Book` return that `show` prints, in the
order `show` reads them. -/
structure Book where
  id : String
  path : String
  indexPath : String
  url : String
  title : String
  name : String
  tags : String
  description : String
  creator : String
  date : String
  articleCount : Nat
  mediaCount : Nat
  size : Nat
  deriving DecidableEq, Repr, Inhabited

/-- One observable effect of a run. A call that reports a result carries that
result; `writeToFile` carries the library value that is written. -/
inductive Event (L : Type) where
  | readFile (path : String) (readOnly : Bool) (ok : Bool)
  | addBookFromPathAndGetId (zimPath zimPathToSave url : String)
      (checkMetaData : Bool) (id : String)
  | setIndexPath (id indexPath : String)
  | removeBookById (id : String) (ok : Bool)
  | writeToFile (library : L) (path : String) (ok : Bool)
  | cout (line : String)
  | cerr (line : String)
  deriving DecidableEq, Repr

/-- One entry of the `long_options` table handed to `getopt_long`
(`has_arg` is `required_argument` for every entry of the source's table). -/
structure LongOption where
  name : String
  val : Char
  deriving DecidableEq, Repr

/-- What a complete `getopt_long` loop yields: the successive return values
other than `-1`, each with the value of `optarg` at that point, and the
diagnostics the C library itself wrote to standard error. -/
structure GetoptRun where
  returns : List (Char × String)
  diagnostics : List String
  deriving DecidableEq, Repr

/-- Everything the source file calls and does not define: the kiwix library
over its own library type `L`, the path tools, and `getopt_long`.
State-changing methods take the library value and return the new one. -/
structure LibraryApi (L : Type) where
  /-- The default-constructed `kiwix::Library library;` of `main`. -/
  emptyLibrary : L
  /-- The call `Manager::readFile(path, readOnly)`: the library after the read,
  and the flag returned. -/
  readFile : L → String → Bool → L × Bool
  /-- The call `Manager::addBookFromPathAndGetId(path, pathToSave, url, checkMetaData)`. -/
  addBookFromPathAndGetId : L → String → String → String → Bool → L × String
  /-- The call `Library::getBookById(id)`, read through the getters. -/
  getBookById : L → String → Book
  /-- The call `Library::getBookById(id).setIndexPath(indexPath)`. -/
  setIndexPath : L → String → String → L
  /-- The call `Library::removeBookById(id)`. -/
  removeBookById : L → String → L × Bool
  /-- The call `Library::writeToFile(path)`: the flag returned. -/
  writeToFile : L → String → Bool
  /-- The call `Library::getBooksIds()`. -/
  getBooksIds : L → List String
  /-- The call `Library::getBookCount(localBooks, remoteBooks)`. -/
  getBookCount : L → Bool → Bool → Nat
  /-- The path tool `isRelativePath(path)`. -/
  isRelativePath : String → Bool
  /-- The path tool `computeAbsolutePath(first, second)`, arguments in call order. -/
  computeAbsolutePath : String → String → String
  /-- The path tool `getCurrentDirectory()`. -/
  getCurrentDirectory : String
  /-- The loop of `getopt_long(argc, argv, optstring, longopts, _)` calls
  started at `optind`, up to the call that returns `-1`. -/
  getopt_long : List String → Nat → String → List LongOption → GetoptRun

/-- The result of a whole run of the program. -/
structure Run (L : Type) where
  outcome : Outcome
  trace : List (Event L)

/-- What a handler hands back to `main`: the library as the handler leaves it,
the effects it performed, and its `bool` return value. -/
structure Handled (L : Type) where
  library : L
  trace : List (Event L)
  code : Bool

/-- The enumeration `supportedAction` of the source. -/
inductive supportedAction where
  | NONE
  | ADD
  | SHOW
  | REMOVE
  deriving DecidableEq, Repr

/-! ## The functions of the source file -/

/-- The body of the loop of `show` for one book: the lines of one
`std::cout << ... << std::endl` chain, `inc` being the counter printed. -/
def showBlock (inc : Nat) (book : Book) : List String :=
  [ "#" ++ toString inc,
    "id:\t\t" ++ book.id,
    "path:\t\t" ++ book.path,
    "indexpath:\t" ++ book.indexPath,
    "url:\t\t" ++ book.url,
    "title:\t\t" ++ book.title,
    "name:\t\t" ++ book.name,
    "tags:\t\t" ++ book.tags,
    "description:\t" ++ book.description,
    "creator:\t" ++ book.creator,
    "date:\t\t" ++ book.date,
    "articleCount:\t" ++ toString book.articleCount,
    "mediaCount:\t" ++ toString book.mediaCount,
    "size:\t\t" ++ toString book.size ++ " KB",
    "" ]

/-- The range-for loop of `show`: `inc` is an `unsigned int`, so `inc++`
wraps at `UINT_RANGE`. -/
def showLoop {L : Type} (api : LibraryApi L) (library : L) :
    Nat → List String → List String
  | _, [] => []
  | inc, id :: rest =>
      showBlock inc (api.getBookById library id)
        ++ showLoop api library ((inc + 1) % UINT_RANGE) rest

/-- The function `show` of the source (a reserved word in Lean): the lines it
writes to standard output. -/
def showBooks {L : Type} (api : LibraryApi L) (library : L) : List String :=
  showLoop api library 1 (api.getBooksIds library)

/-- The function `usage`: the four lines it writes to standard error. -/
def usage : List String :=
  [ "Usage:",
    "\tkiwix-manage LIBRARY_PATH add ZIM_PATH "
      ++ "[--zimPathToSave=../content/foobar.zim] [--current] "
      ++ "[--indexBackend=xapian] [--indexPath=FULLTEXT_IDX_PATH] "
      ++ "[--url=http://...metalink]",
    "\tkiwix-manage LIBRARY_PATH show [CONTENTID1] [CONTENTID2] ... "
      ++ "(show everything if no param.)",
    "\tkiwix-manage LIBRARY_PATH remove CONTENTID1 [CONTENTID2]" ]

/-- The function `handle_show`: it ignores `libraryPath`, `argc` and `argv`. -/
def handle_show {L : Type} (api : LibraryApi L) (library : L)
    (_libraryPath : String) (_argv : List String) : Handled L :=
  { library := library
    trace := (showBooks api library).map Event.cout
    code := false }

/-- The locals of `handle_add` that the option loop assigns. -/
structure AddOptions where
  zimPathToSave : String
  indexPath : String
  url : String
  origID : String
  deriving DecidableEq, Repr

/-- The initial values of those locals. -/
def AddOptions.initial : AddOptions :=
  { zimPathToSave := ".", indexPath := "", url := "", origID := "" }

/-- The `switch (c)` of the option loop; any other value of `c` changes nothing. -/
def AddOptions.assign (o : AddOptions) (r : Char × String) : AddOptions :=
  if r.1 = 'u' then { o with url := r.2 }
  else if r.1 = 'o' then { o with origID := r.2 }
  else if r.1 = 'i' then { o with indexPath := r.2 }
  else if r.1 = 'z' then { o with zimPathToSave := r.2 }
  else o

/-- The table `long_options` of `handle_add`. -/
def long_options : List LongOption :=
  [ ⟨"url", 'u'⟩, ⟨"origId", 'o'⟩, ⟨"indexPath", 'i'⟩, ⟨"zimPathToSave", 'z'⟩ ]

/-- The function `handle_add`. -/
def handle_add {L : Type} (api : LibraryApi L) (library : L)
    (libraryPath : String) (argv : List String) : Handled L :=
  let zimPath := if argv.length > 3 then argv.getD 3 "" else ""
  let parsed := api.getopt_long argv 2 "cz:u:i:" long_options
  let opts := parsed.returns.foldl AddOptions.assign AddOptions.initial
  let diag : List (Event L) := parsed.diagnostics.map Event.cerr
  if zimPath ≠ "" then
    let zimPathToSave := if opts.zimPathToSave = "." then zimPath else opts.zimPathToSave
    let added := api.addBookFromPathAndGetId library zimPath zimPathToSave opts.url false
    let call : Event L :=
      Event.addBookFromPathAndGetId zimPath zimPathToSave opts.url false added.2
    if added.2 ≠ "" then
      if opts.indexPath ≠ "" then
        let indexPath :=
          if api.isRelativePath opts.indexPath
          then api.computeAbsolutePath opts.indexPath api.getCurrentDirectory
          else opts.indexPath
        { library := api.setIndexPath added.1 added.2 indexPath
          trace := diag ++ [call, Event.setIndexPath added.2 indexPath]
          code := false }
      else
        { library := added.1, trace := diag ++ [call], code := false }
    else
      { library := added.1
        trace := diag ++ [call,
          Event.cerr ("Unable to build or save library file '" ++ libraryPath ++ "'")]
        code := true }
  else
    { library := library
      trace := diag ++ [Event.cerr "Invalid zim file path"]
      code := true }

/-- The constructor `std::string(const char*)`; `none` is the null pointer. -/
def stdString : Option String → Except Fault String
  | none => Except.error Fault.nullCString
  | some s => Except.ok s

/-- The statements of `handle_remove` after the declaration of `bookId`,
given the value `bookId0` that declaration produced. -/
def handle_remove_from {L : Type} (api : LibraryApi L) (library : L)
    (_libraryPath : String) (argv : List String) (bookId0 : String) : Handled L :=
  let totalBookCount := api.getBookCount library true true % UINT_RANGE
  let bookId := if argv.length > 3 then argv.getD 3 "" else bookId0
  let removed := api.removeBookById library bookId
  let call : Event L := Event.removeBookById bookId removed.2
  if removed.2 = false then
    if totalBookCount > 0 then
      { library := removed.1
        trace := [call, Event.cerr "Invalid book id."]
        code := true }
    else
      { library := removed.1
        trace := [call, Event.cerr "Invalid book id. Library is empty, no book to delete."]
        code := true }
  else
    { library := removed.1, trace := [call], code := false }

/-- The function `handle_remove`. Its first statement is
`std::string bookId = 0;`: the literal `0` is a null pointer constant, so the
string is built from a null `const char*`. -/
def handle_remove {L : Type} (api : LibraryApi L) (library : L)
    (libraryPath : String) (argv : List String) : Except Fault (Handled L) :=
  match stdString none with
  | Except.error fault => Except.error fault
  | Except.ok bookId0 => Except.ok (handle_remove_from api library libraryPath argv bookId0)

/-- The chain of comparisons on `actionString` in `main`. -/
def parseAction (actionString : String) : supportedAction :=
  if actionString = "add" then supportedAction.ADD
  else if actionString = "show" then supportedAction.SHOW
  else if actionString = "remove" ∨ actionString = "delete" then supportedAction.REMOVE
  else supportedAction.NONE

/-- The library path `main` works with once past the usage check. -/
def resolveLibraryPath {L : Type} (api : LibraryApi L) (libraryPath : String) : String :=
  if api.isRelativePath libraryPath
  then api.computeAbsolutePath api.getCurrentDirectory libraryPath
  else libraryPath

/-- The dispatch of `main` to a handler (`NONE` runs no handler and leaves
`exitCode` at `0`). -/
def dispatch {L : Type} (api : LibraryApi L) (action : supportedAction) (library : L)
    (libraryPath : String) (argv : List String) : Except Fault (Handled L) :=
  match action with
  | supportedAction.SHOW => Except.ok (handle_show api library libraryPath argv)
  | supportedAction.ADD => Except.ok (handle_add api library libraryPath argv)
  | supportedAction.REMOVE => handle_remove api library libraryPath argv
  | supportedAction.NONE => Except.ok { library := library, trace := [], code := false }

/-- The rewrite of the library file at the end of `main`. -/
def rewriteLibrary {L : Type} (api : LibraryApi L) (action : supportedAction) (library : L)
    (libraryPath : String) : List (Event L) :=
  if action = supportedAction.REMOVE ∨ action = supportedAction.ADD then
    [Event.writeToFile library libraryPath (api.writeToFile library libraryPath)]
  else []

/-- The function `main`; `argv` holds `argc` strings, the program name first. -/
def main {L : Type} (api : LibraryApi L) (argv : List String) : Run L :=
  let libraryPath0 := if argv.length > 2 then argv.getD 1 "" else ""
  let action :=
    if argv.length > 2 then parseAction (argv.getD 2 "") else supportedAction.NONE
  if libraryPath0 = "" ∨ action = supportedAction.NONE then
    { outcome := Outcome.exited 1, trace := usage.map Event.cerr }
  else
    let libraryPath := resolveLibraryPath api libraryPath0
    let read := api.readFile api.emptyLibrary libraryPath false
    let opened : List (Event L) := [Event.readFile libraryPath false read.2]
    match dispatch api action read.1 libraryPath argv with
    | Except.error fault =>
        { outcome := Outcome.aborted fault, trace := opened }
    | Except.ok handled =>
        { outcome := Outcome.exited handled.code.toNat
          trace := opened ++ handled.trace
            ++ rewriteLibrary api action handled.library libraryPath }


/-! ## A small concrete library, used to run the functions above on inputs -/

/-- A book with the given id, path and url and fixed other fields. -/
def sampleBook (id path url : String) : Book :=
  { id := id, path := path, indexPath := "", url := url, title := "T-" ++ id,
    name := "n", tags := "", description := "", creator := "c", date := "2011",
    articleCount := 10, mediaCount := 2, size := 300 }

/-- Reading `--name=value` arguments against a table of long options. -/
def sampleLongMatch (arg : String) (o : LongOption) : Option (Char × String) :=
  let key := ("--" ++ o.name ++ "=").data
  if key.isPrefixOf arg.data then some (o.val, String.mk (arg.data.drop key.length))
  else none

/-- An option scanner that knows only the form `--name=value`. -/
def sampleGetopt (argv : List String) (optind : Nat) (_optstring : String)
    (longopts : List LongOption) : GetoptRun :=
  { returns := (argv.drop optind).filterMap
      (fun arg => longopts.findSome? (sampleLongMatch arg))
    diagnostics := [] }

/-- A library held as the list of its books. The file `/data/library.xml`
holds the two books `b1` and `b2`; `/data/empty.xml` is missing (reading it
reports failure and leaves the library empty); a zim file named `missing.zim`
cannot be added. -/
def sampleApi : LibraryApi (List Book) :=
  { emptyLibrary := []
    readFile := fun library path _ =>
      if path = "/data/library.xml"
      then (library ++ [sampleBook "b1" "/z/one.zim" "", sampleBook "b2" "/z/two.zim" ""], true)
      else (library, false)
    addBookFromPathAndGetId := fun library zimPath zimPathToSave url _ =>
      if zimPath = "missing.zim" then (library, "")
      else (library ++ [sampleBook ("id-" ++ zimPath) zimPathToSave url], "id-" ++ zimPath)
    getBookById := fun library id => (library.find? (fun b => b.id = id)).getD default
    setIndexPath := fun library id indexPath =>
      library.map (fun b => if b.id = id then { b with indexPath := indexPath } else b)
    removeBookById := fun library id =>
      (library.filter (fun b => b.id ≠ id), library.any (fun b => b.id = id))
    writeToFile := fun _ path => path ≠ "/data/empty.xml"
    getBooksIds := fun library => library.map Book.id
    getBookCount := fun library _ _ => library.length
    isRelativePath := fun path => path.data.head? ≠ some '/'
    computeAbsolutePath := fun first second => first ++ "/" ++ second
    getCurrentDirectory := "/data"
    getopt_long := sampleGetopt }

/-- The api `api` with the flags reported by `readFile` and `writeToFile`
replaced by `readOk` and `writeOk`; everything else is unchanged. -/
def withReportedFlags {L : Type} (api : LibraryApi L) (readOk writeOk : Bool) :
    LibraryApi L :=
  { api with
    readFile := fun library path readOnly => ((api.readFile library path readOnly).1, readOk)
    writeToFile := fun _ _ => writeOk }

/-- Whether an event is a call of `writeToFile`. -/
def Event.isWrite {L : Type} : Event L → Bool
  | Event.writeToFile _ _ _ => true
  | _ => false

/-- The number of `writeToFile` calls in a trace. -/
def writeCount {L : Type} (trace : List (Event L)) : Nat :=
  (trace.filter Event.isWrite).length

/-! ## Unfolding `main` along the shape of the argument vector -/

theorem main_usage_eq {L : Type} (api : LibraryApi L) (argv : List String)
    (h : argv.length < 3 ∨ argv.getD 1 "" = ""
      ∨ argv.getD 2 "" ∉ ["add", "show", "remove", "delete"]) :
    main api argv = { outcome := Outcome.exited 1, trace := usage.map Event.cerr } := by
  unfold main
  rw [if_pos]
  rcases h with h | h | h
  · left; rw [if_neg (by omega)]
  · by_cases hl : argv.length > 2
    · left; rw [if_pos hl]; exact h
    · left; rw [if_neg hl]
  · right
    by_cases hl : argv.length > 2
    · rw [if_pos hl]
      simp only [List.mem_cons, List.mem_singleton, not_or, List.not_mem_nil, or_false] at h
      unfold parseAction
      rw [if_neg h.1, if_neg h.2.1, if_neg (by tauto)]
    · rw [if_neg hl]

theorem main_show_eq {L : Type} (api : LibraryApi L) (prog libraryPath : String)
    (rest : List String) (hlib : libraryPath ≠ "") :
    main api (prog :: libraryPath :: "show" :: rest) =
      { outcome := Outcome.exited 0
        trace := Event.readFile (resolveLibraryPath api libraryPath) false
            (api.readFile api.emptyLibrary (resolveLibraryPath api libraryPath) false).2
          :: (showBooks api
              (api.readFile api.emptyLibrary (resolveLibraryPath api libraryPath) false).1).map
            Event.cout } := by
  simp [main, parseAction, dispatch, rewriteLibrary, hlib, handle_show]

theorem main_add_eq {L : Type} (api : LibraryApi L) (prog libraryPath : String)
    (rest : List String) (hlib : libraryPath ≠ "") (handled : Handled L)
    (hh : handled = handle_add api
      (api.readFile api.emptyLibrary (resolveLibraryPath api libraryPath) false).1
      (resolveLibraryPath api libraryPath) (prog :: libraryPath :: "add" :: rest)) :
    main api (prog :: libraryPath :: "add" :: rest) =
      { outcome := Outcome.exited handled.code.toNat
        trace := [Event.readFile (resolveLibraryPath api libraryPath) false
            (api.readFile api.emptyLibrary (resolveLibraryPath api libraryPath) false).2]
          ++ handled.trace
          ++ [Event.writeToFile handled.library (resolveLibraryPath api libraryPath)
            (api.writeToFile handled.library (resolveLibraryPath api libraryPath))] } := by
  subst hh
  simp [main, parseAction, dispatch, rewriteLibrary, hlib]

theorem main_remove_eq {L : Type} (api : LibraryApi L) (prog libraryPath action : String)
    (rest : List String) (hlib : libraryPath ≠ "")
    (hact : action = "remove" ∨ action = "delete") :
    main api (prog :: libraryPath :: action :: rest) =
      { outcome := Outcome.aborted Fault.nullCString
        trace := [Event.readFile (resolveLibraryPath api libraryPath) false
            (api.readFile api.emptyLibrary (resolveLibraryPath api libraryPath) false).2] } := by
  rcases hact with h | h <;> subst h <;>
  simp [main, parseAction, dispatch, rewriteLibrary, hlib, handle_remove, stdString]

/-! ## The loop of `show` -/

theorem argv_cases (argv : List String) :
    (argv.length < 3 ∨ argv.getD 1 "" = ""
      ∨ argv.getD 2 "" ∉ ["add", "show", "remove", "delete"])
    ∨ ∃ (prog libraryPath action : String) (rest : List String),
        argv = prog :: libraryPath :: action :: rest ∧ libraryPath ≠ ""
        ∧ (action = "add" ∨ action = "show" ∨ action = "remove" ∨ action = "delete") := by
  by_cases hu : argv.length < 3 ∨ argv.getD 1 "" = ""
      ∨ argv.getD 2 "" ∉ ["add", "show", "remove", "delete"]
  · exact Or.inl hu
  · right
    simp only [not_or, not_lt, not_not, List.mem_cons, List.mem_singleton, List.not_mem_nil,
      or_false] at hu
    obtain ⟨hlen, hlib, hact⟩ := hu
    match argv, hlen, hlib, hact with
    | prog :: libraryPath :: action :: rest, _, hlib, hact =>
      have hact2 : ¬ (¬ action = "add" ∧ ¬ action = "show" ∧ ¬ action = "remove"
          ∧ ¬ action = "delete") := by simpa using hact
      exact ⟨prog, libraryPath, action, rest, rfl, by simpa using hlib, by tauto⟩

theorem getLast?_cons_append_two {α : Type} (a : α) (m : List α) (b x : α) :
    (a :: (m ++ [b, x])).getLast? = some x := by
  have h : a :: (m ++ [b, x]) = (a :: (m ++ [b])) ++ [x] := by simp
  rw [h, List.getLast?_concat]

theorem getLast?_cons_append_three {α : Type} (a : α) (m : List α) (b c x : α) :
    (a :: (m ++ [b, c, x])).getLast? = some x := by
  have h : a :: (m ++ [b, c, x]) = (a :: (m ++ [b, c])) ++ [x] := by simp
  rw [h, List.getLast?_concat]

theorem handle_add_empty_path {L : Type} (api : LibraryApi L) (library : L)
    (libraryPath : String) (argv : List String)
    (hempty : argv.length ≤ 3 ∨ argv.getD 3 "" = "") :
    handle_add api library libraryPath argv =
      { library := library
        trace := (api.getopt_long argv 2 "cz:u:i:" long_options).diagnostics.map Event.cerr
          ++ [Event.cerr "Invalid zim file path"]
        code := true } := by
  have hz : (if argv.length > 3 then argv.getD 3 "" else "") = "" := by
    rcases hempty with h | h
    · rw [if_neg (by omega)]
    · rw [h]; simp
  simp only [handle_add, hz]
  simp

theorem handle_add_empty_id_code {L : Type} (api : LibraryApi L) (library : L)
    (libraryPath : String) (argv : List String)
    (zimPath zimPathToSave url : String) (checkMetaData : Bool)
    (hcall : Event.addBookFromPathAndGetId zimPath zimPathToSave url checkMetaData ""
      ∈ (handle_add api library libraryPath argv).trace) :
    (handle_add api library libraryPath argv).code = true := by
  revert hcall
  simp only [handle_add]
  generalize api.getopt_long argv 2 "cz:u:i:" long_options = parsed
  generalize List.foldl AddOptions.assign AddOptions.initial parsed.returns = opts
  generalize (if argv.length > 3 then argv.getD 3 "" else "") = zim
  generalize (if opts.zimPathToSave = "." then zim else opts.zimPathToSave) = save
  generalize api.addBookFromPathAndGetId library zim save opts.url false = added
  by_cases hz : zim = ""
  · simp [hz]
  · by_cases hid : added.2 = ""
    · simp [hz, hid]
    · by_cases hidx : opts.indexPath = ""
      · simp [hz, hid, hidx]
        intro _ _ _ _ h; exact absurd h.symm hid
      · simp [hz, hid, hidx]
        intro _ _ _ _ h; exact absurd h.symm hid

theorem filter_isWrite_cerr {L : Type} (l : List String) :
    List.filter Event.isWrite (l.map (Event.cerr : String → Event L)) = [] := by
  induction l with
  | nil => rfl
  | cons a t ih => simp [List.filter, Event.isWrite, ih]

theorem filter_isWrite_cout {L : Type} (l : List String) :
    List.filter Event.isWrite (l.map (Event.cout : String → Event L)) = [] := by
  induction l with
  | nil => rfl
  | cons a t ih => simp [List.filter, Event.isWrite, ih]

theorem handle_add_writeCount {L : Type} (api : LibraryApi L) (library : L)
    (libraryPath : String) (argv : List String) :
    writeCount (handle_add api library libraryPath argv).trace = 0 := by
  simp only [handle_add, writeCount]
  generalize api.getopt_long argv 2 "cz:u:i:" long_options = parsed
  generalize List.foldl AddOptions.assign AddOptions.initial parsed.returns = opts
  generalize (if argv.length > 3 then argv.getD 3 "" else "") = zim
  generalize (if opts.zimPathToSave = "." then zim else opts.zimPathToSave) = save
  generalize api.addBookFromPathAndGetId library zim save opts.url false = added
  by_cases hz : zim = ""
  · simp [hz, List.filter_append, filter_isWrite_cerr, List.filter, Event.isWrite]
  · by_cases hid : added.2 = ""
    · simp [hz, hid, List.filter_append, filter_isWrite_cerr, List.filter, Event.isWrite]
    · by_cases hidx : opts.indexPath = ""
      · simp [hz, hid, hidx, List.filter_append, filter_isWrite_cerr, List.filter,
          Event.isWrite]
      · simp [hz, hid, hidx, List.filter_append, filter_isWrite_cerr, List.filter,
          Event.isWrite]

/-- The statements of `handle_remove` that follow the declaration of `bookId`
do what the usage text describes: the id taken from `argv[3]` is handed to
`removeBookById`; success gives return value `0` and no message, failure gives
return value `1` and one of the two messages, chosen by the book count read
before the removal. -/
theorem handle_remove_from_spec {L : Type} (api : LibraryApi L) (library : L)
    (libraryPath prog lib action id bookId0 : String) (rest : List String) :
    handle_remove_from api library libraryPath (prog :: lib :: action :: id :: rest) bookId0
      = { library := (api.removeBookById library id).1
          trace := Event.removeBookById id (api.removeBookById library id).2 ::
            (if (api.removeBookById library id).2 = true then []
             else if api.getBookCount library true true % UINT_RANGE > 0
               then [Event.cerr "Invalid book id."]
               else [Event.cerr "Invalid book id. Library is empty, no book to delete."])
          code := !(api.removeBookById library id).2 } := by
  simp only [handle_remove_from]
  have hz : (if (prog :: lib :: action :: id :: rest).length > 3
      then (prog :: lib :: action :: id :: rest).getD 3 "" else bookId0) = id := by simp
  rw [hz]
  generalize api.removeBookById library id = removed
  by_cases hok : removed.2 = true
  · simp [hok]
  · have hf : removed.2 = false := by simpa using hok
    by_cases hc : api.getBookCount library true true % UINT_RANGE > 0
    · simp [hf, hc]
    · simp [hf, hc]

/-- An accepted `add` run calls `writeToFile` once, as its last effect. -/
theorem main_add_writes_once {L : Type} (api : LibraryApi L) (prog libraryPath : String)
    (rest : List String) (hlib : libraryPath ≠ "") :
    writeCount (main api (prog :: libraryPath :: "add" :: rest)).trace = 1
    ∧ ∃ library, (main api (prog :: libraryPath :: "add" :: rest)).trace.getLast?
        = some (Event.writeToFile library (resolveLibraryPath api libraryPath)
            (api.writeToFile library (resolveLibraryPath api libraryPath))) := by
  rw [main_add_eq api prog libraryPath rest hlib _ rfl]
  constructor
  · have h := handle_add_writeCount api
      (api.readFile api.emptyLibrary (resolveLibraryPath api libraryPath) false).1
      (resolveLibraryPath api libraryPath) (prog :: libraryPath :: "add" :: rest)
    simp only [writeCount] at h ⊢
    simp only [List.filter_append, List.length_append, h]
    simp [List.filter, Event.isWrite]
  · exact ⟨_, List.getLast?_concat _⟩

/-- An accepted `show` run never calls `writeToFile`. -/
theorem main_show_never_writes {L : Type} (api : LibraryApi L) (prog libraryPath : String)
    (rest : List String) (hlib : libraryPath ≠ "") :
    writeCount (main api (prog :: libraryPath :: "show" :: rest)).trace = 0 := by
  rw [main_show_eq api prog libraryPath rest hlib]
  simp [writeCount, List.filter, Event.isWrite, filter_isWrite_cout]

/-! ## The claims -/

/-- Claim C1. For every invocation `LIBRARY_PATH add ZIM_PATH [options]` with a
non-empty library path and a non-empty `ZIM_PATH`: `addBookFromPathAndGetId` is
called on the library read from the file, with `ZIM_PATH`, the path to save and
the url the options gave; the process exits with code `0` exactly when the id
returned is non-empty; when the id is empty it exits with code `1` and
`Unable to build or save library file '<library path>'` is written to standard
error; when the id is non-empty the last effect of the run is `writeToFile` of
the library the handler left, on the resolved library path. -/
theorem add_exit_code_follows_book_id {L : Type} (api : LibraryApi L)
    (prog libraryPath zimPath : String) (rest : List String)
    (hlib : libraryPath ≠ "") (hzim : zimPath ≠ "") :
    let argv := prog :: libraryPath :: "add" :: zimPath :: rest
    let run := main api argv
    let path := resolveLibraryPath api libraryPath
    let opts := (api.getopt_long argv 2 "cz:u:i:" long_options).returns.foldl
      AddOptions.assign AddOptions.initial
    let zimPathToSave := if opts.zimPathToSave = "." then zimPath else opts.zimPathToSave
    let added := api.addBookFromPathAndGetId (api.readFile api.emptyLibrary path false).1
      zimPath zimPathToSave opts.url false
    let written :=
      if opts.indexPath = "" then added.1
      else api.setIndexPath added.1 added.2
        (if api.isRelativePath opts.indexPath
         then api.computeAbsolutePath opts.indexPath api.getCurrentDirectory
         else opts.indexPath)
    Event.addBookFromPathAndGetId zimPath zimPathToSave opts.url false added.2 ∈ run.trace
    ∧ (run.outcome = Outcome.exited 0 ↔ added.2 ≠ "")
    ∧ (added.2 = "" →
        run.outcome = Outcome.exited 1
        ∧ Event.cerr ("Unable to build or save library file '" ++ path ++ "'") ∈ run.trace)
    ∧ (added.2 ≠ "" →
        run.trace.getLast?
          = some (Event.writeToFile written path (api.writeToFile written path))) := by
  dsimp only
  rw [main_add_eq api prog libraryPath (zimPath :: rest) hlib _ rfl]
  have hz : (if (prog :: libraryPath :: "add" :: zimPath :: rest).length > 3
      then (prog :: libraryPath :: "add" :: zimPath :: rest).getD 3 "" else "") = zimPath := by
    simp
  simp only [handle_add, hz]
  generalize api.getopt_long (prog :: libraryPath :: "add" :: zimPath :: rest) 2 "cz:u:i:"
    long_options = parsed
  generalize List.foldl AddOptions.assign AddOptions.initial parsed.returns = opts
  generalize resolveLibraryPath api libraryPath = path
  generalize api.readFile api.emptyLibrary path false = read
  generalize (if opts.zimPathToSave = "." then zimPath else opts.zimPathToSave) = zimPathToSave
  generalize api.addBookFromPathAndGetId read.1 zimPath zimPathToSave opts.url false = added
  by_cases hid : added.2 = ""
  · simp [hzim, hid]
  · by_cases hidx : opts.indexPath = ""
    · simp [hzim, hid, hidx, getLast?_cons_append_two]
    · simp [hzim, hid, hidx, getLast?_cons_append_three]

/-- Claim C1 on the sample library: `add missing.zim` (empty id) exits with
code `1`, and for `add a.zim --indexPath=idx` exit code `0` goes with the
non-empty id. -/
theorem add_exit_code_follows_book_id_witness :
    ("library.xml" ≠ "" ∧ "missing.zim" ≠ "")
    ∧ (main sampleApi ["kiwix-manage", "library.xml", "add", "missing.zim"]).outcome
        = Outcome.exited 1
    ∧ ((main sampleApi
          ["kiwix-manage", "library.xml", "add", "a.zim", "--indexPath=idx"]).outcome
        = Outcome.exited 0 ↔ "id-a.zim" ≠ "") :=
  ⟨by decide,
   ((add_exit_code_follows_book_id sampleApi "kiwix-manage" "library.xml" "missing.zim" []
      (by decide) (by decide)).2.2.1 rfl).1,
   (add_exit_code_follows_book_id sampleApi "kiwix-manage" "library.xml" "a.zim"
      ["--indexPath=idx"] (by decide) (by decide)).2.1⟩

/-- Claim C2, evaluated at `library.xml remove b1` and `library.xml delete b2`
on the sample library, which tracks `b1` and `b2` and whose `removeBookById`
would succeed on them: the run ends abnormally in `handle_remove`, at the
construction of `bookId` from a null pointer; the only effect is the `readFile`
call, so `removeBookById` is not called, no exit code `0` is produced and the
library file is not rewritten. -/
theorem remove_of_tracked_book_aborts :
    "b1" ∈ sampleApi.getBooksIds
      (sampleApi.readFile sampleApi.emptyLibrary "/data/library.xml" false).1
    ∧ (sampleApi.removeBookById
        (sampleApi.readFile sampleApi.emptyLibrary "/data/library.xml" false).1 "b1").2 = true
    ∧ (main sampleApi ["kiwix-manage", "library.xml", "remove", "b1"]).outcome
        = Outcome.aborted Fault.nullCString
    ∧ (main sampleApi ["kiwix-manage", "library.xml", "remove", "b1"]).trace
        = [Event.readFile "/data/library.xml" false true]
    ∧ (main sampleApi ["kiwix-manage", "library.xml", "delete", "b2"]).outcome
        = Outcome.aborted Fault.nullCString
    ∧ (main sampleApi ["kiwix-manage", "library.xml", "delete", "b2"]).trace
        = [Event.readFile "/data/library.xml" false true] := by
  refine ⟨by decide, by decide, by decide, by decide, by decide, by decide⟩

/-- Claim C4, evaluated at `empty.xml remove b1` (empty library, book count `0`)
and at `library.xml remove zz` (two books, unknown id), where `removeBookById`
would report failure: both runs end abnormally in `handle_remove` before
`removeBookById` is called; no exit code `1` is produced and neither of the two
`Invalid book id` messages is written. -/
theorem remove_failure_aborts_without_message :
    (sampleApi.getBookCount
        (sampleApi.readFile sampleApi.emptyLibrary "/data/empty.xml" false).1 true true = 0
      ∧ (sampleApi.removeBookById
          (sampleApi.readFile sampleApi.emptyLibrary "/data/empty.xml" false).1 "b1").2 = false
      ∧ main sampleApi ["kiwix-manage", "empty.xml", "remove", "b1"]
          = { outcome := Outcome.aborted Fault.nullCString
              trace := [Event.readFile "/data/empty.xml" false false] })
    ∧ (sampleApi.getBookCount
        (sampleApi.readFile sampleApi.emptyLibrary "/data/library.xml" false).1 true true = 2
      ∧ (sampleApi.removeBookById
          (sampleApi.readFile sampleApi.emptyLibrary "/data/library.xml" false).1 "zz").2 = false
      ∧ main sampleApi ["kiwix-manage", "library.xml", "remove", "zz"]
          = { outcome := Outcome.aborted Fault.nullCString
              trace := [Event.readFile "/data/library.xml" false true] }) :=
  ⟨⟨by decide, by decide, rfl⟩, ⟨by decide, by decide, rfl⟩⟩

/-- Claim C5. When `argv[3]` is absent or is the empty string, whatever else the
argument vector holds: `handle_add` writes `Invalid zim file path` to standard
error (after whatever `getopt_long` itself printed), returns `1` and leaves the
library untouched; and an `add` run of `main` with a non-empty library path
exits with code `1`, its effects being the `readFile` call, those lines and the
final `writeToFile`, so that `addBookFromPathAndGetId` is never called. -/
theorem add_rejects_empty_zim_path {L : Type} (api : LibraryApi L) (argv : List String)
    (hempty : argv.length ≤ 3 ∨ argv.getD 3 "" = "") :
    (∀ (library : L) (libraryPath : String),
      handle_add api library libraryPath argv =
        { library := library
          trace := (api.getopt_long argv 2 "cz:u:i:" long_options).diagnostics.map Event.cerr
            ++ [Event.cerr "Invalid zim file path"]
          code := true })
    ∧ (∀ (prog libraryPath : String) (tail : List String),
        argv = prog :: libraryPath :: "add" :: tail → libraryPath ≠ "" →
        (main api argv).outcome = Outcome.exited 1
        ∧ (main api argv).trace =
            [Event.readFile (resolveLibraryPath api libraryPath) false
              (api.readFile api.emptyLibrary (resolveLibraryPath api libraryPath) false).2]
            ++ (api.getopt_long argv 2 "cz:u:i:" long_options).diagnostics.map Event.cerr
            ++ [Event.cerr "Invalid zim file path",
                Event.writeToFile
                  (api.readFile api.emptyLibrary (resolveLibraryPath api libraryPath) false).1
                  (resolveLibraryPath api libraryPath)
                  (api.writeToFile
                    (api.readFile api.emptyLibrary (resolveLibraryPath api libraryPath) false).1
                    (resolveLibraryPath api libraryPath))]
        ∧ (∀ (zimPath zimPathToSave url : String) (checkMetaData : Bool) (id : String),
            Event.addBookFromPathAndGetId zimPath zimPathToSave url checkMetaData id
              ∉ (main api argv).trace)) := by
  refine ⟨fun library libraryPath => handle_add_empty_path api library libraryPath argv hempty, ?_⟩
  intro prog libraryPath tail hargv hlib
  have hm := main_add_eq api prog libraryPath tail hlib _ rfl
  rw [← hargv, handle_add_empty_path api _ _ argv hempty] at hm
  rw [hm]
  refine ⟨rfl, by simp, ?_⟩
  intro a b c d id
  simp

/-- Claim C5 on the sample library, for `library.xml add "" --url=http://u`. -/
theorem add_rejects_empty_zim_path_witness :
    (["kiwix-manage", "library.xml", "add", "", "--url=http://u"].length ≤ 3
      ∨ ["kiwix-manage", "library.xml", "add", "", "--url=http://u"].getD 3 "" = "")
    ∧ (main sampleApi ["kiwix-manage", "library.xml", "add", "", "--url=http://u"]).outcome
        = Outcome.exited 1
    ∧ Event.cerr "Invalid zim file path"
        ∈ (main sampleApi ["kiwix-manage", "library.xml", "add", "", "--url=http://u"]).trace :=
  ⟨by decide,
   ((add_rejects_empty_zim_path sampleApi
      ["kiwix-manage", "library.xml", "add", "", "--url=http://u"] (by decide)).2
      "kiwix-manage" "library.xml" ["", "--url=http://u"] rfl (by decide)).1,
   by decide⟩

/-- Claim C6. For every argument vector with fewer than two arguments after the
program name, or with an empty library path, or with an action other than
`add`, `show`, `remove` and `delete`: `main` exits with code `1` and its
effects are exactly the four lines of the usage message, written to standard
error in this order: `Usage:`, the `add` line, the `show` line and the `remove`
line; so no library file is read or written. -/
theorem main_prints_usage_on_bad_arguments {L : Type} (api : LibraryApi L)
    (argv : List String)
    (h : argv.length < 3 ∨ argv.getD 1 "" = ""
      ∨ argv.getD 2 "" ∉ ["add", "show", "remove", "delete"]) :
    main api argv =
      { outcome := Outcome.exited 1
        trace :=
          [ Event.cerr "Usage:",
            Event.cerr "\tkiwix-manage LIBRARY_PATH add ZIM_PATH [--zimPathToSave=../content/foobar.zim] [--current] [--indexBackend=xapian] [--indexPath=FULLTEXT_IDX_PATH] [--url=http://...metalink]",
            Event.cerr "\tkiwix-manage LIBRARY_PATH show [CONTENTID1] [CONTENTID2] ... (show everything if no param.)",
            Event.cerr "\tkiwix-manage LIBRARY_PATH remove CONTENTID1 [CONTENTID2]" ] }
    ∧ (∀ e ∈ (main api argv).trace, ∃ line, e = Event.cerr line)
    ∧ (∀ (path : String) (readOnly ok : Bool),
        Event.readFile path readOnly ok ∉ (main api argv).trace)
    ∧ (∀ (library : L) (path : String) (ok : Bool),
        Event.writeToFile library path ok ∉ (main api argv).trace) := by
  have hm := main_usage_eq api argv h
  have hlines : ∀ e ∈ (main api argv).trace, ∃ line, e = Event.cerr line := by
    rw [hm]
    intro e he
    simp only [List.mem_map] at he
    obtain ⟨line, _, rfl⟩ := he
    exact ⟨line, rfl⟩
  refine ⟨hm.trans rfl, hlines, ?_, ?_⟩
  · intro path readOnly ok hmem
    obtain ⟨line, hline⟩ := hlines _ hmem
    exact Event.noConfusion hline
  · intro library path ok hmem
    obtain ⟨line, hline⟩ := hlines _ hmem
    exact Event.noConfusion hline

/-- Claim C6 on the sample library, for the unknown action `list`: exit code `1`
and the four usage lines. -/
theorem main_prints_usage_on_bad_arguments_witness :
    (["kiwix-manage", "library.xml", "list"].length < 3
      ∨ ["kiwix-manage", "library.xml", "list"].getD 1 "" = ""
      ∨ ["kiwix-manage", "library.xml", "list"].getD 2 "" ∉ ["add", "show", "remove", "delete"])
    ∧ main sampleApi ["kiwix-manage", "library.xml", "list"] =
      { outcome := Outcome.exited 1
        trace :=
          [ Event.cerr "Usage:",
            Event.cerr "\tkiwix-manage LIBRARY_PATH add ZIM_PATH [--zimPathToSave=../content/foobar.zim] [--current] [--indexBackend=xapian] [--indexPath=FULLTEXT_IDX_PATH] [--url=http://...metalink]",
            Event.cerr "\tkiwix-manage LIBRARY_PATH show [CONTENTID1] [CONTENTID2] ... (show everything if no param.)",
            Event.cerr "\tkiwix-manage LIBRARY_PATH remove CONTENTID1 [CONTENTID2]" ] } :=
  ⟨by decide, (main_prints_usage_on_bad_arguments sampleApi
    ["kiwix-manage", "library.xml", "list"] (by decide)).1⟩

/-- Claim C7, evaluated at `library.xml remove b1` on the sample library: the
run passes argument validation (it calls `readFile`), the action is `remove`,
and `writeToFile` is called zero times, because `handle_remove` never returns
to `main`. -/
theorem remove_run_never_writes :
    parseAction "remove" = supportedAction.REMOVE
    ∧ writeCount (main sampleApi ["kiwix-manage", "library.xml", "remove", "b1"]).trace = 0
    ∧ (main sampleApi ["kiwix-manage", "library.xml", "remove", "b1"]).trace.head?
        = some (Event.readFile "/data/library.xml" false true)
    ∧ ∀ code, (main sampleApi ["kiwix-manage", "library.xml", "remove", "b1"]).outcome
        ≠ Outcome.exited code := by
  refine ⟨by decide, by decide, by decide, ?_⟩
  intro code h
  have habort : (main sampleApi ["kiwix-manage", "library.xml", "remove", "b1"]).outcome
      = Outcome.aborted Fault.nullCString := by decide
  rw [habort] at h
  exact Outcome.noConfusion h

/-- Claim C8, evaluated at `library.xml delete b2` on the sample library, whose
current directory is `/data`: the relative library path is resolved to
`/data/library.xml` and that path is passed to `readFile`, but no path at all
is passed to `writeToFile`, the `readFile` call being the whole trace. -/
theorem delete_run_resolves_path_but_never_writes :
    sampleApi.isRelativePath "library.xml" = true
    ∧ resolveLibraryPath sampleApi "library.xml"
        = sampleApi.computeAbsolutePath sampleApi.getCurrentDirectory "library.xml"
    ∧ resolveLibraryPath sampleApi "library.xml" = "/data/library.xml"
    ∧ main sampleApi ["kiwix-manage", "library.xml", "delete", "b2"]
        = { outcome := Outcome.aborted Fault.nullCString
            trace := [Event.readFile "/data/library.xml" false true] }
    ∧ ∀ (library : List Book) (path : String) (ok : Bool),
        Event.writeToFile library path ok
          ∉ (main sampleApi ["kiwix-manage", "library.xml", "delete", "b2"]).trace := by
  refine ⟨by decide, by decide, by decide, rfl, ?_⟩
  intro library path ok h
  have ht : (main sampleApi ["kiwix-manage", "library.xml", "delete", "b2"]).trace
      = [Event.readFile "/data/library.xml" false true] := rfl
  rw [ht] at h
  simp at h

/-- Claim C9 as stated fails on the run `empty.xml add a.zim` of the sample
library: `readFile` reports failure and `writeToFile` reports failure, and the
process exits with code `0`. -/
theorem add_exits_zero_despite_failed_read_and_write :
    Event.readFile "/data/empty.xml" false false
      ∈ (main sampleApi ["kiwix-manage", "empty.xml", "add", "a.zim"]).trace
    ∧ Event.writeToFile [sampleBook "id-a.zim" "a.zim" ""] "/data/empty.xml" false
      ∈ (main sampleApi ["kiwix-manage", "empty.xml", "add", "a.zim"]).trace
    ∧ (main sampleApi ["kiwix-manage", "empty.xml", "add", "a.zim"]).outcome
      = Outcome.exited 0 := by
  refine ⟨by decide, by decide, by decide⟩

/-- Claim C9, amended. For every argument vector: if `addBookFromPathAndGetId`
was called during the run and returned the empty id, the process exits with
code `1`; so exit code `0` implies that every `addBookFromPathAndGetId` call of
the run returned a non-empty id; and the flags that `readFile` and
`writeToFile` report are not looked at: replacing them by any other values
leaves the way the process ends unchanged. -/
theorem exit_code_reflects_add_failure_only {L : Type} (api : LibraryApi L)
    (argv : List String) :
    (∀ (zimPath zimPathToSave url : String) (checkMetaData : Bool),
      Event.addBookFromPathAndGetId zimPath zimPathToSave url checkMetaData ""
        ∈ (main api argv).trace →
      (main api argv).outcome = Outcome.exited 1)
    ∧ ((main api argv).outcome = Outcome.exited 0 →
        ∀ (zimPath zimPathToSave url : String) (checkMetaData : Bool) (id : String),
          Event.addBookFromPathAndGetId zimPath zimPathToSave url checkMetaData id
            ∈ (main api argv).trace → id ≠ "")
    ∧ (∀ (readOk writeOk : Bool),
        (main (withReportedFlags api readOk writeOk) argv).outcome = (main api argv).outcome) := by
  have hone : ∀ (zimPath zimPathToSave url : String) (checkMetaData : Bool),
      Event.addBookFromPathAndGetId zimPath zimPathToSave url checkMetaData ""
        ∈ (main api argv).trace →
      (main api argv).outcome = Outcome.exited 1 := by
    intro zimPath zimPathToSave url checkMetaData hcall
    rcases argv_cases argv with hu | ⟨prog, libraryPath, action, rest, rfl, hlib, h | h | h | h⟩
    · rw [main_usage_eq api argv hu]
    · subst h
      rw [main_add_eq api prog libraryPath rest hlib _ rfl] at hcall ⊢
      simp only [List.mem_append, List.mem_singleton, List.mem_cons, List.not_mem_nil,
        or_false, reduceCtorEq, false_or] at hcall
      rw [handle_add_empty_id_code api _ _ _ _ _ _ _ hcall]
      rfl
    · subst h
      rw [main_show_eq api prog libraryPath rest hlib] at hcall
      simp at hcall
    · rw [main_remove_eq api prog libraryPath action rest hlib (Or.inl h)] at hcall
      simp at hcall
    · rw [main_remove_eq api prog libraryPath action rest hlib (Or.inr h)] at hcall
      simp at hcall
  refine ⟨hone, ?_, ?_⟩
  · intro hzero zimPath zimPathToSave url checkMetaData id hcall hid
    subst hid
    have h1 := hone zimPath zimPathToSave url checkMetaData hcall
    rw [h1] at hzero
    exact absurd hzero (by decide)
  · intro readOk writeOk
    rcases argv_cases argv with hu | ⟨prog, libraryPath, action, rest, rfl, hlib, h | h | h | h⟩
    · rw [main_usage_eq _ argv hu, main_usage_eq _ argv hu]
    · subst h
      rw [main_add_eq _ prog libraryPath rest hlib _ rfl,
        main_add_eq _ prog libraryPath rest hlib _ rfl]
      rfl
    · subst h
      rw [main_show_eq _ prog libraryPath rest hlib, main_show_eq _ prog libraryPath rest hlib]
    · rw [main_remove_eq _ prog libraryPath action rest hlib (Or.inl h),
        main_remove_eq _ prog libraryPath action rest hlib (Or.inl h)]
    · rw [main_remove_eq _ prog libraryPath action rest hlib (Or.inr h),
        main_remove_eq _ prog libraryPath action rest hlib (Or.inr h)]

/-- Claim C9, amended, on the sample library: `library.xml add missing.zim`
gets the empty id from `addBookFromPathAndGetId` and exits with code `1`. -/
theorem exit_code_reflects_add_failure_only_witness :
    Event.addBookFromPathAndGetId "missing.zim" "missing.zim" "" false ""
      ∈ (main sampleApi ["kiwix-manage", "library.xml", "add", "missing.zim"]).trace
    ∧ (main sampleApi ["kiwix-manage", "library.xml", "add", "missing.zim"]).outcome
      = Outcome.exited 1 :=
  ⟨by decide,
   (exit_code_reflects_add_failure_only sampleApi
      ["kiwix-manage", "library.xml", "add", "missing.zim"]).1
      "missing.zim" "missing.zim" "" false (by decide)⟩

/-- Claim C10, evaluated on every input: for every library, library path and
argument vector, with or without an id at `argv[3]`, `handle_remove` ends in
the fault of its first statement, `std::string bookId = 0;`, so it neither
reaches `removeBookById` nor returns an exit flag. -/
theorem handle_remove_faults_at_bookId_declaration {L : Type} (api : LibraryApi L)
    (library : L) (libraryPath : String) (argv : List String) :
    handle_remove api library libraryPath argv = Except.error Fault.nullCString
    ∧ ∀ handled : Handled L,
        handle_remove api library libraryPath argv ≠ Except.ok handled := by
  refine ⟨rfl, ?_⟩
  intro handled h
  have hf : handle_remove api library libraryPath argv = Except.error Fault.nullCString := rfl
  rw [hf] at h
  exact Except.noConfusion h

end KiwixManage
